import Mathlib

/-!
Verification of the object-entity access-control layer of the 1ISTEN podcast
platform (repository files `src/routes.ts` and `src/storage.ts`).

The route handlers are translated from `src/routes.ts`.  The
`ObjectStorageService` / `ObjectAcl` module and the `replitAuth` identity
middleware are imported by `routes.ts` but their sources are not part of the
repository snapshot; those operations are modelled from the specification
(sections 4.1 to 4.4, 6 and 7), as indicated on each definition.
-/

/-- Visibility class of an ACL record: `pub` models the source's `"public"`,
`priv` models `"private"` (both are Lean keywords, hence the short names). -/
inductive Visibility where
  | pub
  | priv
deriving DecidableEq, Repr

/-- Requested or granted permission (`ObjectPermission` in `objectAcl`). -/
inductive ObjectPermission where
  | READ
  | WRITE
deriving DecidableEq, Repr

/-- One explicit grant in an ACL record's rule list: a principal and the
permission granted to it. -/
structure AclRule where
  principal : String
  permission : ObjectPermission
deriving DecidableEq, Repr

/-- ACL record attached to one object identifier: owner principal, visibility
class, and an explicit rule list (empty by default). -/
structure AclPolicy where
  owner : String
  visibility : Visibility
  rules : List AclRule
deriving DecidableEq, Repr

/-- Error taxonomy of the access-control core (spec section 7).  In the code
only `ObjectNotFoundError` is exported by `objectStorage`; the other failures
are internal distinctions. -/
inductive CoreError where
  | MalformedReference
  | ObjectNotFound
  | AccessDenied
  | PolicyConflict
deriving DecidableEq, Repr

/-- Modelled from the spec: section 7 flattening.  The storage service surfaces
`MalformedReference` with the same not-found error class
(`ObjectNotFoundError`) that the route-level catch in `src/routes.ts` maps to
a 404, "never as a parsing error". -/
def isNotFoundClass : CoreError → Bool
  | CoreError.MalformedReference => true
  | CoreError.ObjectNotFound => true
  | CoreError.AccessDenied => false
  | CoreError.PolicyConflict => false

/-- WRITE implies READ (spec section 3: "WRITE ≥ READ"). -/
def permSatisfies (granted requested : ObjectPermission) : Bool :=
  match granted, requested with
  | ObjectPermission.WRITE, _ => true
  | ObjectPermission.READ, ObjectPermission.READ => true
  | ObjectPermission.READ, ObjectPermission.WRITE => false

/-- Modelled from the spec: section 4.2 permission evaluator
(`ObjectAcl`-equivalent logic, not under `src/`).  Decision order, first match
wins: no record → deny; caller is owner → allow; READ and public → allow;
explicit rule with sufficient permission → allow; otherwise deny. -/
def evaluate (callerPrincipal : Option String) (record : Option AclPolicy)
    (requested : ObjectPermission) : Bool :=
  match record with
  | none => false
  | some r =>
    if callerPrincipal = some r.owner then true
    else if requested = ObjectPermission.READ ∧ r.visibility = Visibility.pub then true
    else if r.rules.any (fun g =>
        decide (callerPrincipal = some g.principal) && permSatisfies g.permission requested)
      then true
    else false

/-- Blob store state: object bytes and the ACL metadata co-located with each
object, both keyed by canonical object identifier. -/
structure ObjectStore where
  bytes : String → Option (List Nat)
  acl : String → Option AclPolicy

/-- User row as read by the route handlers (`storage.getUser`); only the
`role` field is consulted. -/
structure User where
  role : String
deriving DecidableEq, Repr

/-- Body of `PUT /api/shows/:id` as consulted by the handler: the raw upload
reference `coverImageURL` and the normalized `coverImageUrl` the handler
writes back before persisting. -/
structure ShowUpdates where
  coverImageURL : Option String := none
  coverImageUrl : Option String := none
deriving DecidableEq, Repr

/-- Body of `PUT /api/seasons/:id` as consulted by the handler. -/
structure SeasonUpdates where
  coverImageURL : Option String := none
  coverImageUrl : Option String := none
deriving DecidableEq, Repr

/-- Body of `PUT /api/episodes/:id` as consulted by the handler: raw upload
references, their normalized forms, and the publication flag. -/
structure EpisodeUpdates where
  audioFileURL : Option String := none
  audioFileUrl : Option String := none
  coverImageURL : Option String := none
  coverImageUrl : Option String := none
  isPublished : Option Bool := none
deriving DecidableEq, Repr

/-- Full mutable state visible to the modelled handlers: the blob store and
the relational rows touched by the routes under study. -/
structure SystemState where
  store : ObjectStore
  usersDb : String → Option User
  showsDb : String → Option ShowUpdates
  seasonsDb : String → Option SeasonUpdates
  episodesDb : String → Option EpisodeUpdates

/-- JavaScript truthiness of an optional string field (`undefined` and the
empty string are falsy). -/
def truthyStr : Option String → Bool
  | some s => s != ""
  | none => false

/-- JavaScript truthiness of an optional boolean field. -/
def truthyB : Option Bool → Bool
  | some b => b
  | none => false

/-- The `user?.role === "client"` guard of the route handlers (optional
chaining: a missing user row is not a client). -/
def roleIsClient : Option User → Bool
  | some u => u.role == "client"
  | none => false

/-- Character-level check that `pat` occurs at the head of `s`. -/
def matchesRoot : List Char → List Char → Bool
  | [], _ => true
  | _ :: _, [] => false
  | a :: as, b :: bs => a = b && matchesRoot as bs

/-- Detects an embedded `..` path-traversal sequence. -/
def hasTraversalList : List Char → Bool
  | [] => false
  | c :: rest =>
    (match c, rest with
     | '.', d :: _ => d = '.'
     | _, _ => false) || hasTraversalList rest

/-- Detects an embedded `..` path-traversal sequence in a string. -/
def hasTraversal (p : String) : Bool := hasTraversalList p.toList

/-- Externally visible routing root of the download side (`/objects/`). -/
def objectsRoot : String := "/objects/"

/-- Store root that upload destinations issued by the broker carry. -/
def uploadUrlRoot : String := "https://storage.googleapis.com/"

/-- Drops the leading root characters of a resolved reference, leaving the
canonical identifier suffix. -/
def dropRoot (root s : String) : String :=
  String.mk (s.toList.drop root.toList.length)

/-- Modelled from the spec: section 4.1 download-side entity path resolver
(part of `ObjectStorageService`, not under `src/`).  Strips the `/objects/`
routing root; fails with `MalformedReference` when the input does not match
the namespace root or encodes path traversal. -/
def resolveObjectEntityPath (reqPath : String) : Except CoreError String :=
  if matchesRoot objectsRoot.toList reqPath.toList && !hasTraversal reqPath then
    Except.ok (dropRoot objectsRoot reqPath)
  else Except.error CoreError.MalformedReference

/-- Everything before the first query component of a destination URL. -/
def stripQuery (rawUrl : String) : String :=
  String.mk (rawUrl.toList.takeWhile (fun c => c ≠ '?'))

/-- Modelled from the spec: section 4.1 upload-side resolver (part of
`ObjectStorageService`, not under `src/`).  Accepts the full destination URL
issued by the upload broker, strips store-specific query and signature
components, and recovers the canonical identifier. -/
def normalizeObjectEntityPath (rawUrl : String) : Except CoreError String :=
  let noQuery := stripQuery rawUrl
  if matchesRoot uploadUrlRoot.toList noQuery.toList && !hasTraversal noQuery then
    Except.ok (dropRoot uploadUrlRoot noQuery)
  else Except.error CoreError.MalformedReference

/-- Handle on a stored object as returned by `getObjectEntityFile`. -/
structure ObjectFile where
  id : String
  content : List Nat
deriving DecidableEq, Repr

/-- Modelled from the spec: sections 4.1 and 4.4 (part of
`ObjectStorageService`, not under `src/`).  Resolves a request path and checks
the object exists; a missing object fails with the not-found error class. -/
def getObjectEntityFile (store : ObjectStore) (reqPath : String) :
    Except CoreError ObjectFile :=
  match resolveObjectEntityPath reqPath with
  | Except.error e => Except.error e
  | Except.ok objId =>
    match store.bytes objId with
    | none => Except.error CoreError.ObjectNotFound
    | some content => Except.ok ⟨objId, content⟩

/-- Modelled from the spec: section 4.2 call shape used by the download route
(part of `ObjectStorageService`, not under `src/`): reads the ACL metadata
co-located with the object and evaluates the requested permission. -/
def canAccessObjectEntity (store : ObjectStore) (objId : String)
    (userId : Option String) (requestedPermission : ObjectPermission) : Bool :=
  evaluate userId (store.acl objId) requestedPermission

/-- Response bodies the modelled routes can produce. -/
inductive RespBody where
  | bytes (content : List Nat)
  | objectPath (p : String)
  | message
  | empty
deriving DecidableEq, Repr

/-- HTTP-level response of a modelled route. -/
structure Response where
  code : Nat
  body : RespBody
deriving DecidableEq, Repr

/-- Modelled from the spec: section 4.4 step 4 (part of
`ObjectStorageService`, not under `src/`): streams the object's bytes to the
response. -/
def downloadObject (file : ObjectFile) : Response :=
  ⟨200, RespBody.bytes file.content⟩

/-- The `GET /objects/:objectPath` handler of `src/routes.ts` (lines 47-68):
resolve and fetch the object, evaluate READ for the caller, stream on allow,
401 on deny; the catch maps the not-found error class to 404 and anything
else to 500.  The caller principal is supplied by the identity middleware,
modelled from the spec (section 6) as an authenticated principal or
anonymous (`none`). -/
def getObjectsHandler (s : SystemState) (userId : Option String)
    (reqPath : String) : SystemState × Response :=
  match getObjectEntityFile s.store reqPath with
  | Except.error e =>
    if isNotFoundClass e then (s, ⟨404, RespBody.empty⟩)
    else (s, ⟨500, RespBody.empty⟩)
  | Except.ok objectFile =>
    if canAccessObjectEntity s.store objectFile.id userId ObjectPermission.READ then
      (s, downloadObject objectFile)
    else (s, ⟨401, RespBody.empty⟩)

/-- Writes an ACL record into the store metadata of one object. -/
def setAcl (store : ObjectStore) (objId : String) (p : AclPolicy) : ObjectStore :=
  { store with acl := fun k => if k = objId then some p else store.acl k }

/-- Modelled from the spec: section 4.3 `attachPolicy`
(`trySetObjectEntityAclPolicy` of `ObjectStorageService`, not under `src/`).
Resolves the destination URL, fails `ObjectNotFound` when the bytes were
never written, fails `PolicyConflict` when a record with a different owner
already exists, and otherwise creates (or idempotently rewrites with
identical owner) the ACL record, returning the canonical identifier.  The
returned store is the post-call state: unchanged on every failure. -/
def trySetObjectEntityAclPolicy (store : ObjectStore) (rawUrl : String)
    (p : AclPolicy) : ObjectStore × Except CoreError String :=
  match normalizeObjectEntityPath rawUrl with
  | Except.error e => (store, Except.error e)
  | Except.ok objId =>
    match store.bytes objId with
    | none => (store, Except.error CoreError.ObjectNotFound)
    | some _ =>
      match store.acl objId with
      | some existing =>
        if existing.owner = p.owner then (setAcl store objId p, Except.ok objId)
        else (store, Except.error CoreError.PolicyConflict)
      | none => (setAcl store objId p, Except.ok objId)

/-- Body of `PUT /api/projects/:id/audio` as a caller may send it.  The
handler reads only `audioFileUrl`; `owner` and `visibility` model extra
fields a caller could supply in the JSON body (they are ignored by the
code). -/
structure AudioPutBody where
  audioFileUrl : Option String := none
  owner : Option String := none
  visibility : Option Visibility := none
deriving DecidableEq, Repr

/-- The `PUT /api/projects/:id/audio` handler of `src/routes.ts`
(lines 266-294): 400 when the body lacks a truthy `audioFileUrl`, 403 when
the caller's role is `client`, otherwise attach an ACL policy with the
authenticated caller as owner and visibility `private`; a thrown attach
error is caught and surfaced as 500. -/
def putProjectAudioHandler (s : SystemState) (userId : String)
    (body : AudioPutBody) : SystemState × Response :=
  if truthyStr body.audioFileUrl = false then (s, ⟨400, RespBody.message⟩)
  else if roleIsClient (s.usersDb userId) then (s, ⟨403, RespBody.message⟩)
  else
    match body.audioFileUrl with
    | none => (s, ⟨400, RespBody.message⟩)
    | some url =>
      match trySetObjectEntityAclPolicy s.store url
          ⟨userId, Visibility.priv, []⟩ with
      | (store', Except.ok objPath) =>
        ({ s with store := store' }, ⟨200, RespBody.objectPath objPath⟩)
      | (store', Except.error _) =>
        ({ s with store := store' }, ⟨500, RespBody.message⟩)

/-- One `trySetObjectEntityAclPolicy` call as performed inside the update
handlers: returns the state after the call and the normalized path on
success, `none` when the call threw. -/
def attachStep (s : SystemState) (url : String) (policy : AclPolicy) :
    SystemState × Option String :=
  match trySetObjectEntityAclPolicy s.store url policy with
  | (store', Except.ok objPath) => ({ s with store := store' }, some objPath)
  | (store', Except.error _) => ({ s with store := store' }, none)

/-- The `coverImageURL` branch of `PUT /api/shows/:id` (lines 380-391):
when the body carries a truthy `coverImageURL`, attach
`{owner: userId, visibility: "public"}` and move the normalized path into
`coverImageUrl`; `none` in the second component models the thrown error. -/
def showCoverStep (s : SystemState) (uid : String) (updates : ShowUpdates) :
    SystemState × Option ShowUpdates :=
  match updates.coverImageURL with
  | none => (s, some updates)
  | some curl =>
    if curl = "" then (s, some updates)
    else
      match attachStep s curl ⟨uid, Visibility.pub, []⟩ with
      | (s1, some coverPath) =>
        (s1, some { updates with coverImageUrl := some coverPath, coverImageURL := none })
      | (s1, none) => (s1, none)

/-- The `coverImageURL` branch of `PUT /api/seasons/:id` (lines 479-490),
identical in shape to the show branch. -/
def seasonCoverStep (s : SystemState) (uid : String) (updates : SeasonUpdates) :
    SystemState × Option SeasonUpdates :=
  match updates.coverImageURL with
  | none => (s, some updates)
  | some curl =>
    if curl = "" then (s, some updates)
    else
      match attachStep s curl ⟨uid, Visibility.pub, []⟩ with
      | (s1, some coverPath) =>
        (s1, some { updates with coverImageUrl := some coverPath, coverImageURL := none })
      | (s1, none) => (s1, none)

/-- The `audioFileURL` branch of `PUT /api/episodes/:id` (lines 584-595):
when the body carries a truthy `audioFileURL`, attach
`{owner: userId, visibility: isPublished ? "public" : "private"}` and move
the normalized path into `audioFileUrl`. -/
def episodeAudioStep (s : SystemState) (uid : String) (updates : EpisodeUpdates) :
    SystemState × Option EpisodeUpdates :=
  match updates.audioFileURL with
  | none => (s, some updates)
  | some aurl =>
    if aurl = "" then (s, some updates)
    else
      match attachStep s aurl
          ⟨uid, if truthyB updates.isPublished then Visibility.pub else Visibility.priv, []⟩ with
      | (s1, some audioPath) =>
        (s1, some { updates with audioFileUrl := some audioPath, audioFileURL := none })
      | (s1, none) => (s1, none)

/-- The `coverImageURL` branch of `PUT /api/episodes/:id` (lines 597-608). -/
def episodeCoverStep (s : SystemState) (uid : String) (updates : EpisodeUpdates) :
    SystemState × Option EpisodeUpdates :=
  match updates.coverImageURL with
  | none => (s, some updates)
  | some curl =>
    if curl = "" then (s, some updates)
    else
      match attachStep s curl ⟨uid, Visibility.pub, []⟩ with
      | (s1, some coverPath) =>
        (s1, some { updates with coverImageUrl := some coverPath, coverImageURL := none })
      | (s1, none) => (s1, none)

/-- `storage.updateShow` of `src/storage.ts` (lines 159-166), abstracted to
replacing the row with the merged updates. -/
def updateShow (s : SystemState) (id : String) (row : ShowUpdates) : SystemState :=
  { s with showsDb := fun k => if k = id then some row else s.showsDb k }

/-- `storage.updateSeason` of `src/storage.ts` (lines 187-194). -/
def updateSeason (s : SystemState) (id : String) (row : SeasonUpdates) : SystemState :=
  { s with seasonsDb := fun k => if k = id then some row else s.seasonsDb k }

/-- `storage.updateEpisode` of `src/storage.ts` (lines 219-226). -/
def updateEpisode (s : SystemState) (id : String) (row : EpisodeUpdates) : SystemState :=
  { s with episodesDb := fun k => if k = id then some row else s.episodesDb k }

/-- The `PUT /api/shows/:id` handler of `src/routes.ts` (lines 367-399):
401 when no authenticated user row exists; otherwise run the cover branch
and persist the merged updates; a thrown attach error is caught as 400. -/
def putShowHandler (s : SystemState) (userId : Option String) (showId : String)
    (updates : ShowUpdates) : SystemState × Response :=
  match userId with
  | none => (s, ⟨401, RespBody.message⟩)
  | some uid =>
    match s.usersDb uid with
    | none => (s, ⟨401, RespBody.message⟩)
    | some _ =>
      match showCoverStep s uid updates with
      | (s1, some row) => (updateShow s1 showId row, ⟨200, RespBody.message⟩)
      | (s1, none) => (s1, ⟨400, RespBody.message⟩)

/-- The `PUT /api/seasons/:id` handler of `src/routes.ts` (lines 466-498). -/
def putSeasonHandler (s : SystemState) (userId : Option String) (seasonId : String)
    (updates : SeasonUpdates) : SystemState × Response :=
  match userId with
  | none => (s, ⟨401, RespBody.message⟩)
  | some uid =>
    match s.usersDb uid with
    | none => (s, ⟨401, RespBody.message⟩)
    | some _ =>
      match seasonCoverStep s uid updates with
      | (s1, some row) => (updateSeason s1 seasonId row, ⟨200, RespBody.message⟩)
      | (s1, none) => (s1, ⟨400, RespBody.message⟩)

/-- The `PUT /api/episodes/:id` handler of `src/routes.ts` (lines 571-616):
401 when no authenticated user row exists; run the audio branch, then the
cover branch, then persist the merged updates; a thrown attach error is
caught as 400. -/
def putEpisodeHandler (s : SystemState) (userId : Option String) (epId : String)
    (updates : EpisodeUpdates) : SystemState × Response :=
  match userId with
  | none => (s, ⟨401, RespBody.message⟩)
  | some uid =>
    match s.usersDb uid with
    | none => (s, ⟨401, RespBody.message⟩)
    | some _ =>
      match episodeAudioStep s uid updates with
      | (s1, none) => (s1, ⟨400, RespBody.message⟩)
      | (s1, some upd1) =>
        match episodeCoverStep s1 uid upd1 with
        | (s2, none) => (s2, ⟨400, RespBody.message⟩)
        | (s2, some upd2) => (updateEpisode s2 epId upd2, ⟨200, RespBody.message⟩)

/-! ## Helper lemmas about the store operations -/

theorem setAcl_acl_self (st : ObjectStore) (k : String) (p : AclPolicy) :
    (setAcl st k p).acl k = some p := by
  simp [setAcl]

theorem setAcl_acl_other (st : ObjectStore) (k j : String) (p : AclPolicy)
    (h : j ≠ k) : (setAcl st k p).acl j = st.acl j := by
  simp [setAcl, h]

theorem setAcl_bytes (st : ObjectStore) (k : String) (p : AclPolicy) :
    (setAcl st k p).bytes = st.bytes := rfl

theorem trySet_success (st : ObjectStore) (url objId : String) (p : AclPolicy)
    (hres : normalizeObjectEntityPath url = Except.ok objId)
    (hbytes : (st.bytes objId).isSome = true)
    (hnoconf : st.acl objId = none ∨ ∃ r, st.acl objId = some r ∧ r.owner = p.owner) :
    trySetObjectEntityAclPolicy st url p = (setAcl st objId p, Except.ok objId) := by
  obtain ⟨c, hc⟩ := Option.isSome_iff_exists.mp hbytes
  rcases hnoconf with h | ⟨r, hr, hro⟩
  · simp [trySetObjectEntityAclPolicy, hres, hc, h]
  · simp [trySetObjectEntityAclPolicy, hres, hc, hr, hro]

theorem trySet_ok_inv (st st' : ObjectStore) (url objId : String) (p : AclPolicy)
    (h : trySetObjectEntityAclPolicy st url p = (st', Except.ok objId)) :
    st' = setAcl st objId p ∧ (st.bytes objId).isSome = true := by
  unfold trySetObjectEntityAclPolicy at h
  split at h
  · simp at h
  · rename_i j heq
    split at h
    · simp at h
    · rename_i c hb
      split at h
      · rename_i r ha
        split at h
        · simp only [Prod.mk.injEq, Except.ok.injEq] at h
          obtain ⟨h1, h2⟩ := h
          subst h2
          exact ⟨h1.symm, by rw [hb]; rfl⟩
        · simp at h
      · simp only [Prod.mk.injEq, Except.ok.injEq] at h
        obtain ⟨h1, h2⟩ := h
        subst h2
        exact ⟨h1.symm, by rw [hb]; rfl⟩

theorem trySet_acl_preserve (st : ObjectStore) (url : String) (p : AclPolicy)
    (k : String) (h : normalizeObjectEntityPath url ≠ Except.ok k) :
    (trySetObjectEntityAclPolicy st url p).1.acl k = st.acl k := by
  unfold trySetObjectEntityAclPolicy
  split
  · rfl
  · rename_i j heq
    have hkj : k ≠ j := fun hh => h (hh ▸ heq)
    split
    · rfl
    · split
      · split
        · simp [setAcl, hkj]
        · rfl
      · simp [setAcl, hkj]

theorem attachStep_success (s : SystemState) (url objId : String) (p : AclPolicy)
    (hres : normalizeObjectEntityPath url = Except.ok objId)
    (hbytes : (s.store.bytes objId).isSome = true)
    (hnoconf : s.store.acl objId = none ∨
               ∃ r, s.store.acl objId = some r ∧ r.owner = p.owner) :
    attachStep s url p =
      ({ s with store := setAcl s.store objId p }, some objId) := by
  unfold attachStep
  rw [trySet_success s.store url objId p hres hbytes hnoconf]

theorem attachStep_store (s : SystemState) (url : String) (p : AclPolicy) :
    (attachStep s url p).1.store = (trySetObjectEntityAclPolicy s.store url p).1 := by
  unfold attachStep
  cases h : trySetObjectEntityAclPolicy s.store url p with
  | mk store' r => cases r <;> simp

/-! ## Concrete fixtures used by the witness theorems -/

/-- Bytes map of the witness store: one object `uploads/a`. -/
def wBytes : String → Option (List Nat) :=
  fun k => if k = "uploads/a" then some [7, 8] else none

/-- Witness store with bytes for `uploads/a` and no ACL record. -/
def wStoreNoAcl : ObjectStore := { bytes := wBytes, acl := fun _ => none }

/-- Witness store whose object `uploads/a` carries a private ACL record
owned by `u1`. -/
def wStorePrivU1 : ObjectStore :=
  { bytes := wBytes
    acl := fun k =>
      if k = "uploads/a" then some ⟨"u1", Visibility.priv, []⟩ else none }

/-- Witness user table: `u1` is a producer, `u2` a client. -/
def wUsers : String → Option User :=
  fun k =>
    if k = "u1" then some ⟨"producer"⟩
    else if k = "u2" then some ⟨"client"⟩
    else none

/-- Empty shows table for witnesses. -/
def wNoShows : String → Option ShowUpdates := fun _ => none

/-- Empty seasons table for witnesses. -/
def wNoSeasons : String → Option SeasonUpdates := fun _ => none

/-- Empty episodes table for witnesses. -/
def wNoEpisodes : String → Option EpisodeUpdates := fun _ => none

/-- Witness system state around a given store. -/
def wSys (st : ObjectStore) : SystemState :=
  { store := st, usersDb := wUsers, showsDb := wNoShows,
    seasonsDb := wNoSeasons, episodesDb := wNoEpisodes }

/-- Upload destination URL of the witness object. -/
def wUrl : String := "https://storage.googleapis.com/uploads/a"

/-- Download request path of the witness object. -/
def wPath : String := "/objects/uploads/a"

/-! ## Claim theorems -/

/-- C1: after a successful attach with visibility `public`, a download request
for that object with an anonymous caller (no authenticated principal) returns
the object's bytes, not an authentication or access error. -/
theorem public_visibility_serves_anonymous_after_attach
    (s0 s1 : ObjectStore) (udb : String → Option User)
    (sdb : String → Option ShowUpdates) (qdb : String → Option SeasonUpdates)
    (edb : String → Option EpisodeUpdates)
    (url reqPath objId o : String) (content : List Nat)
    (hattach : trySetObjectEntityAclPolicy s0 url ⟨o, Visibility.pub, []⟩ =
      (s1, Except.ok objId))
    (hres : resolveObjectEntityPath reqPath = Except.ok objId)
    (hbytes : s1.bytes objId = some content) :
    getObjectsHandler ⟨s1, udb, sdb, qdb, edb⟩ none reqPath =
      (⟨s1, udb, sdb, qdb, edb⟩, ⟨200, RespBody.bytes content⟩) := by
  obtain ⟨hs1, _⟩ := trySet_ok_inv s0 s1 url objId _ hattach
  subst hs1
  have hget : getObjectEntityFile (setAcl s0 objId ⟨o, Visibility.pub, []⟩) reqPath
      = Except.ok ⟨objId, content⟩ := by
    simp [getObjectEntityFile, hres, hbytes]
  have hacc : canAccessObjectEntity (setAcl s0 objId ⟨o, Visibility.pub, []⟩)
      objId none ObjectPermission.READ = true := by
    simp [canAccessObjectEntity, setAcl, evaluate]
  simp [getObjectsHandler, hget, hacc, downloadObject]

/-- Witness for C1 at the concrete fixture. -/
theorem public_visibility_serves_anonymous_after_attach_witness :
    getObjectsHandler
      ⟨(trySetObjectEntityAclPolicy wStoreNoAcl wUrl ⟨"u1", Visibility.pub, []⟩).1,
       wUsers, wNoShows, wNoSeasons, wNoEpisodes⟩ none wPath =
      (⟨(trySetObjectEntityAclPolicy wStoreNoAcl wUrl ⟨"u1", Visibility.pub, []⟩).1,
        wUsers, wNoShows, wNoSeasons, wNoEpisodes⟩, ⟨200, RespBody.bytes [7, 8]⟩) :=
  public_visibility_serves_anonymous_after_attach wStoreNoAcl _ wUsers wNoShows
    wNoSeasons wNoEpisodes wUrl wPath "uploads/a" "u1" [7, 8] rfl rfl rfl

/-- C2: an identifier with no ACL record is denied both READ and WRITE for
every caller, and a download of such an object never returns bytes (it ends
in 404 or 401). -/
theorem no_acl_record_denies_all (s : SystemState) (reqPath objId : String)
    (hres : resolveObjectEntityPath reqPath = Except.ok objId)
    (hacl : s.store.acl objId = none) :
    (∀ caller perm, evaluate caller (s.store.acl objId) perm = false) ∧
    (∀ caller : Option String,
      (getObjectsHandler s caller reqPath).2 = ⟨404, RespBody.empty⟩ ∨
      (getObjectsHandler s caller reqPath).2 = ⟨401, RespBody.empty⟩) := by
  constructor
  · intro caller perm
    rw [hacl]
    rfl
  · intro caller
    cases hb : s.store.bytes objId with
    | none =>
      left
      have hget : getObjectEntityFile s.store reqPath =
          Except.error CoreError.ObjectNotFound := by
        simp [getObjectEntityFile, hres, hb]
      simp [getObjectsHandler, hget, isNotFoundClass]
    | some c =>
      right
      have hget : getObjectEntityFile s.store reqPath = Except.ok ⟨objId, c⟩ := by
        simp [getObjectEntityFile, hres, hb]
      simp [getObjectsHandler, hget, canAccessObjectEntity, hacl, evaluate]

/-- Witness for C2 at the concrete fixture. -/
theorem no_acl_record_denies_all_witness :
    evaluate (some "u2") ((wSys wStoreNoAcl).store.acl "uploads/a")
      ObjectPermission.READ = false ∧
    ((getObjectsHandler (wSys wStoreNoAcl) (some "u2") wPath).2 =
        ⟨404, RespBody.empty⟩ ∨
     (getObjectsHandler (wSys wStoreNoAcl) (some "u2") wPath).2 =
        ⟨401, RespBody.empty⟩) :=
  ⟨(no_acl_record_denies_all (wSys wStoreNoAcl) wPath "uploads/a" rfl rfl).1
      (some "u2") ObjectPermission.READ,
   (no_acl_record_denies_all (wSys wStoreNoAcl) wPath "uploads/a" rfl rfl).2
      (some "u2")⟩

/-- C3: an attach on an identifier whose existing ACL record has a different
owner fails with `PolicyConflict` and leaves the existing record (in
particular its owner) unchanged. -/
theorem attach_conflict_preserves_existing_owner (st : ObjectStore)
    (url objId : String) (existing p : AclPolicy)
    (hres : normalizeObjectEntityPath url = Except.ok objId)
    (hbytes : (st.bytes objId).isSome = true)
    (hacl : st.acl objId = some existing)
    (hdiff : existing.owner ≠ p.owner) :
    trySetObjectEntityAclPolicy st url p =
      (st, Except.error CoreError.PolicyConflict) ∧
    (trySetObjectEntityAclPolicy st url p).1.acl objId = some existing := by
  obtain ⟨c, hc⟩ := Option.isSome_iff_exists.mp hbytes
  have hmain : trySetObjectEntityAclPolicy st url p =
      (st, Except.error CoreError.PolicyConflict) := by
    simp [trySetObjectEntityAclPolicy, hres, hc, hacl, hdiff]
  exact ⟨hmain, by rw [hmain]; exact hacl⟩

/-- Witness for C3 at the concrete fixture: `u2` attempts to attach over
`u1`'s record. -/
theorem attach_conflict_preserves_existing_owner_witness :
    trySetObjectEntityAclPolicy wStorePrivU1 wUrl ⟨"u2", Visibility.pub, []⟩ =
      (wStorePrivU1, Except.error CoreError.PolicyConflict) ∧
    (trySetObjectEntityAclPolicy wStorePrivU1 wUrl ⟨"u2", Visibility.pub, []⟩).1.acl
      "uploads/a" = some ⟨"u1", Visibility.priv, []⟩ :=
  attach_conflict_preserves_existing_owner wStorePrivU1 wUrl "uploads/a"
    ⟨"u1", Visibility.priv, []⟩ ⟨"u2", Visibility.pub, []⟩ rfl rfl rfl
    (by decide)

/-- C5: a download request whose READ evaluation denies the caller ends with
status 401 (one of the 401/403 deny statuses) and no object bytes in the
response. -/
theorem denied_read_yields_401_no_bytes (s : SystemState) (caller : Option String)
    (reqPath objId : String) (content : List Nat)
    (hres : resolveObjectEntityPath reqPath = Except.ok objId)
    (hbytes : s.store.bytes objId = some content)
    (hdeny : evaluate caller (s.store.acl objId) ObjectPermission.READ = false) :
    getObjectsHandler s caller reqPath = (s, ⟨401, RespBody.empty⟩) := by
  have hget : getObjectEntityFile s.store reqPath = Except.ok ⟨objId, content⟩ := by
    simp [getObjectEntityFile, hres, hbytes]
  simp [getObjectsHandler, hget, canAccessObjectEntity, hdeny]

/-- Witness for C5: client `u2` is denied on `u1`'s private object. -/
theorem denied_read_yields_401_no_bytes_witness :
    getObjectsHandler (wSys wStorePrivU1) (some "u2") wPath =
      (wSys wStorePrivU1, ⟨401, RespBody.empty⟩) :=
  denied_read_yields_401_no_bytes (wSys wStorePrivU1) (some "u2") wPath
    "uploads/a" [7, 8] rfl rfl (by decide)

/-- C6: a download request whose path fails resolution fails with
`MalformedReference`, and the route surfaces it as a 404 not-found response,
never as a parsing or internal (500) error. -/
theorem malformed_reference_surfaced_as_not_found (s : SystemState)
    (caller : Option String) (reqPath : String) (e : CoreError)
    (hres : resolveObjectEntityPath reqPath = Except.error e) :
    e = CoreError.MalformedReference ∧
    getObjectsHandler s caller reqPath = (s, ⟨404, RespBody.empty⟩) := by
  have he : e = CoreError.MalformedReference := by
    unfold resolveObjectEntityPath at hres
    split at hres
    · exact absurd hres (by simp)
    · exact (Except.error.injEq .. ▸ hres).symm
  subst he
  refine ⟨rfl, ?_⟩
  have hget : getObjectEntityFile s.store reqPath =
      Except.error CoreError.MalformedReference := by
    simp [getObjectEntityFile, hres]
  simp [getObjectsHandler, hget, isNotFoundClass]

/-- Witness for C6: a path outside the `/objects/` namespace and a traversal
path both resolve to `MalformedReference` and are served a 404. -/
theorem malformed_reference_surfaced_as_not_found_witness :
    CoreError.MalformedReference = CoreError.MalformedReference ∧
    getObjectsHandler (wSys wStoreNoAcl) (some "u1") "/objects/../secret" =
      (wSys wStoreNoAcl, ⟨404, RespBody.empty⟩) :=
  malformed_reference_surfaced_as_not_found (wSys wStoreNoAcl) (some "u1")
    "/objects/../secret" CoreError.MalformedReference rfl

/-- C7: the download path mutates no state: no ACL record, no stored object
and no database row is created, updated or deleted by `GET /objects/...`. -/
theorem download_path_no_state_mutation (s : SystemState) (caller : Option String)
    (reqPath : String) : (getObjectsHandler s caller reqPath).1 = s := by
  unfold getObjectsHandler
  split
  · split <;> rfl
  · split <;> rfl

/-- Body for the C4 counterexample: a caller-supplied owner and visibility
that differ from the session identity and from `private`. -/
def bodyC4 : AudioPutBody :=
  { audioFileUrl := some wUrl, owner := some "mallory",
    visibility := some Visibility.pub }

/-- Body carrying only the raw reference, as the handler actually consumes. -/
def bodyPlain : AudioPutBody := { audioFileUrl := some wUrl }

/-- C4 counterexample: the PUT audio-policy operation does not attach the
caller-supplied owner and visibility.  With body owner `mallory` and body
visibility `public`, the attached ACL record is owner `u1` (the authenticated
session) and visibility `private`. -/
theorem put_audio_ignores_body_owner_visibility :
    bodyC4.owner = some "mallory" ∧
    bodyC4.visibility = some Visibility.pub ∧
    (putProjectAudioHandler (wSys wStoreNoAcl) "u1" bodyC4).1.store.acl "uploads/a" =
      some ⟨"u1", Visibility.priv, []⟩ ∧
    (putProjectAudioHandler (wSys wStoreNoAcl) "u1" bodyC4).1.store.acl "uploads/a" ≠
      some ⟨"mallory", Visibility.pub, []⟩ := by
  refine ⟨rfl, rfl, ?_, ?_⟩ <;> decide

/-- C4 amended: the PUT policy operation accepts a body containing a raw
reference (`audioFileUrl`); it attaches owner = authenticated caller and
visibility = `private` (ignoring any body-supplied owner or visibility) and
returns the canonical object identifier. -/
theorem put_audio_attaches_caller_private_policy (s : SystemState)
    (userId : String) (body : AudioPutBody) (url objId : String)
    (hurl : body.audioFileUrl = some url) (hne : url ≠ "")
    (hrole : roleIsClient (s.usersDb userId) = false)
    (hres : normalizeObjectEntityPath url = Except.ok objId)
    (hbytes : (s.store.bytes objId).isSome = true)
    (hnoconf : s.store.acl objId = none ∨
               ∃ r, s.store.acl objId = some r ∧ r.owner = userId) :
    (putProjectAudioHandler s userId body).1.store.acl objId =
      some ⟨userId, Visibility.priv, []⟩ ∧
    (putProjectAudioHandler s userId body).2 = ⟨200, RespBody.objectPath objId⟩ := by
  have htr : truthyStr body.audioFileUrl = true := by simp [truthyStr, hurl, hne]
  have hset := trySet_success s.store url objId ⟨userId, Visibility.priv, []⟩
    hres hbytes hnoconf
  constructor <;>
    simp [putProjectAudioHandler, truthyStr, htr, hrole, hurl, hne, hset, setAcl]

/-- Witness for the amended C4 at the concrete fixture. -/
theorem put_audio_attaches_caller_private_policy_witness :
    (putProjectAudioHandler (wSys wStoreNoAcl) "u1" bodyPlain).1.store.acl
      "uploads/a" = some ⟨"u1", Visibility.priv, []⟩ ∧
    (putProjectAudioHandler (wSys wStoreNoAcl) "u1" bodyPlain).2 =
      ⟨200, RespBody.objectPath "uploads/a"⟩ :=
  put_audio_attaches_caller_private_policy (wSys wStoreNoAcl) "u1" bodyPlain
    wUrl "uploads/a" rfl (by decide) rfl rfl rfl (Or.inl rfl)

/-- C10: a project-audio attach request from a client role, or one whose body
lacks a truthy `audioFileUrl`, is rejected before any attach: the state (in
particular every ACL record) is unchanged, with a 400 status when the
reference is missing and a 403 status when a client supplied one. -/
theorem rejected_audio_put_leaves_state_unchanged (s : SystemState)
    (userId : String) (body : AudioPutBody)
    (h : roleIsClient (s.usersDb userId) = true ∨
         truthyStr body.audioFileUrl = false) :
    (putProjectAudioHandler s userId body).1 = s ∧
    ((truthyStr body.audioFileUrl = false ∧
        (putProjectAudioHandler s userId body).2 = ⟨400, RespBody.message⟩) ∨
     (truthyStr body.audioFileUrl = true ∧
        roleIsClient (s.usersDb userId) = true ∧
        (putProjectAudioHandler s userId body).2 = ⟨403, RespBody.message⟩)) := by
  cases ht : truthyStr body.audioFileUrl with
  | false =>
    refine ⟨by simp [putProjectAudioHandler, ht], Or.inl ⟨rfl, ?_⟩⟩
    simp [putProjectAudioHandler, ht]
  | true =>
    rcases h with hc | hf
    · refine ⟨by simp [putProjectAudioHandler, ht, hc], Or.inr ⟨rfl, hc, ?_⟩⟩
      simp [putProjectAudioHandler, ht, hc]
    · rw [hf] at ht
      cases ht

/-- Witness for C10: client `u2` sends a request carrying a reference. -/
theorem rejected_audio_put_leaves_state_unchanged_witness :
    (putProjectAudioHandler (wSys wStoreNoAcl) "u2" bodyPlain).1 =
      wSys wStoreNoAcl ∧
    ((truthyStr bodyPlain.audioFileUrl = false ∧
        (putProjectAudioHandler (wSys wStoreNoAcl) "u2" bodyPlain).2 =
          ⟨400, RespBody.message⟩) ∨
     (truthyStr bodyPlain.audioFileUrl = true ∧
        roleIsClient ((wSys wStoreNoAcl).usersDb "u2") = true ∧
        (putProjectAudioHandler (wSys wStoreNoAcl) "u2" bodyPlain).2 =
          ⟨403, RespBody.message⟩)) :=
  rejected_audio_put_leaves_state_unchanged (wSys wStoreNoAcl) "u2" bodyPlain
    (Or.inl rfl)

/-! ## Helper lemmas about the update-handler steps -/

theorem episodeCoverStep_acl_preserve (s : SystemState) (uid : String)
    (upd : EpisodeUpdates) (k : String)
    (hcov : ∀ curl, upd.coverImageURL = some curl → curl ≠ "" →
            normalizeObjectEntityPath curl ≠ Except.ok k) :
    (episodeCoverStep s uid upd).1.store.acl k = s.store.acl k := by
  cases hc : upd.coverImageURL with
  | none => simp [episodeCoverStep, hc]
  | some curl =>
    by_cases hne : curl = ""
    · simp [episodeCoverStep, hc, hne]
    · have hnk := hcov curl hc hne
      have hpres := trySet_acl_preserve s.store curl ⟨uid, Visibility.pub, []⟩ k hnk
      cases hat : attachStep s curl ⟨uid, Visibility.pub, []⟩ with
      | mk s1 r =>
        have hs1 : s1.store =
            (trySetObjectEntityAclPolicy s.store curl ⟨uid, Visibility.pub, []⟩).1 := by
          have ha := attachStep_store s curl ⟨uid, Visibility.pub, []⟩
          rw [hat] at ha
          exact ha
        cases r with
        | none => simp [episodeCoverStep, hc, hne, hat, hs1, hpres]
        | some p => simp [episodeCoverStep, hc, hne, hat, hs1, hpres]

theorem putEpisodeHandler_acl_after_audio (s : SystemState) (uid epId : String)
    (u : User) (updates : EpisodeUpdates) (hu : s.usersDb uid = some u)
    (s1 : SystemState) (upd1 : EpisodeUpdates)
    (hstep : episodeAudioStep s uid updates = (s1, some upd1)) (k : String)
    (hcov : ∀ curl, upd1.coverImageURL = some curl → curl ≠ "" →
            normalizeObjectEntityPath curl ≠ Except.ok k) :
    (putEpisodeHandler s (some uid) epId updates).1.store.acl k =
      s1.store.acl k := by
  have hpres := episodeCoverStep_acl_preserve s1 uid upd1 k hcov
  simp only [putEpisodeHandler, hu, hstep]
  cases hcs : episodeCoverStep s1 uid upd1 with
  | mk s2 r =>
    rw [hcs] at hpres
    cases r with
    | none => simpa using hpres
    | some upd2 => simpa [updateEpisode] using hpres

/-- C8: an episode update supplying an `audioFileURL` attaches an ACL record
on the audio object whose owner is the authenticated caller and whose
visibility is `public` exactly when the update's `isPublished` field is
truthy, `private` otherwise. -/
theorem episode_audio_visibility_tracks_isPublished
    (s : SystemState) (uid epId : String) (u : User) (updates : EpisodeUpdates)
    (aurl objId : String)
    (hu : s.usersDb uid = some u)
    (ha : updates.audioFileURL = some aurl) (hane : aurl ≠ "")
    (hres : normalizeObjectEntityPath aurl = Except.ok objId)
    (hbytes : (s.store.bytes objId).isSome = true)
    (hnoconf : s.store.acl objId = none ∨
               ∃ r, s.store.acl objId = some r ∧ r.owner = uid)
    (hcov : ∀ curl, updates.coverImageURL = some curl → curl ≠ "" →
            normalizeObjectEntityPath curl ≠ Except.ok objId) :
    (putEpisodeHandler s (some uid) epId updates).1.store.acl objId =
      some ⟨uid,
        if truthyB updates.isPublished then Visibility.pub else Visibility.priv,
        []⟩ ∧
    ((if truthyB updates.isPublished then Visibility.pub else Visibility.priv) =
        Visibility.pub ↔ truthyB updates.isPublished = true) := by
  constructor
  · have hat := attachStep_success s aurl objId
      ⟨uid, if truthyB updates.isPublished then Visibility.pub else Visibility.priv, []⟩
      hres hbytes hnoconf
    have hstep : episodeAudioStep s uid updates =
        ({ s with store := (setAcl s.store objId ⟨uid, (if truthyB updates.isPublished then Visibility.pub else Visibility.priv), []⟩) },
         some { updates with audioFileUrl := some objId, audioFileURL := none }) := by
      simp [episodeAudioStep, ha, hane, hat]
    have hafter := putEpisodeHandler_acl_after_audio s uid epId u updates hu _ _
      hstep objId hcov
    rw [hafter]
    simp [setAcl]
  · by_cases hp : truthyB updates.isPublished = true
    · simp [hp]
    · simp [hp]

/-- Episode body used by the C8 witness: published episode with audio. -/
def epUpdW : EpisodeUpdates := { audioFileURL := some wUrl, isPublished := some true }

/-- Witness for C8 at the concrete fixture. -/
theorem episode_audio_visibility_tracks_isPublished_witness :
    (putEpisodeHandler (wSys wStoreNoAcl) (some "u1") "e1" epUpdW).1.store.acl
      "uploads/a" =
      some ⟨"u1",
        if truthyB epUpdW.isPublished then Visibility.pub else Visibility.priv,
        []⟩ ∧
    ((if truthyB epUpdW.isPublished then Visibility.pub else Visibility.priv) =
        Visibility.pub ↔ truthyB epUpdW.isPublished = true) :=
  episode_audio_visibility_tracks_isPublished (wSys wStoreNoAcl) "u1" "e1"
    ⟨"producer"⟩ epUpdW wUrl "uploads/a" rfl rfl (by decide) rfl rfl
    (Or.inl rfl) (fun curl h _ => Option.noConfusion h)

theorem showCoverStep_success (s : SystemState) (uid : String) (upd : ShowUpdates)
    (curl objId : String) (hc : upd.coverImageURL = some curl) (hne : curl ≠ "")
    (hres : normalizeObjectEntityPath curl = Except.ok objId)
    (hbytes : (s.store.bytes objId).isSome = true)
    (hnoconf : s.store.acl objId = none ∨
               ∃ r, s.store.acl objId = some r ∧ r.owner = uid) :
    showCoverStep s uid upd =
      ({ s with store := (setAcl s.store objId ⟨uid, Visibility.pub, []⟩) },
       some { upd with coverImageUrl := some objId, coverImageURL := none }) := by
  have hat := attachStep_success s curl objId ⟨uid, Visibility.pub, []⟩ hres hbytes hnoconf
  simp [showCoverStep, hc, hne, hat]

theorem seasonCoverStep_success (s : SystemState) (uid : String) (upd : SeasonUpdates)
    (curl objId : String) (hc : upd.coverImageURL = some curl) (hne : curl ≠ "")
    (hres : normalizeObjectEntityPath curl = Except.ok objId)
    (hbytes : (s.store.bytes objId).isSome = true)
    (hnoconf : s.store.acl objId = none ∨
               ∃ r, s.store.acl objId = some r ∧ r.owner = uid) :
    seasonCoverStep s uid upd =
      ({ s with store := (setAcl s.store objId ⟨uid, Visibility.pub, []⟩) },
       some { upd with coverImageUrl := some objId, coverImageURL := none }) := by
  have hat := attachStep_success s curl objId ⟨uid, Visibility.pub, []⟩ hres hbytes hnoconf
  simp [seasonCoverStep, hc, hne, hat]

theorem episodeCoverStep_success (s : SystemState) (uid : String)
    (upd : EpisodeUpdates) (curl objId : String)
    (hc : upd.coverImageURL = some curl) (hne : curl ≠ "")
    (hres : normalizeObjectEntityPath curl = Except.ok objId)
    (hbytes : (s.store.bytes objId).isSome = true)
    (hnoconf : s.store.acl objId = none ∨
               ∃ r, s.store.acl objId = some r ∧ r.owner = uid) :
    episodeCoverStep s uid upd =
      ({ s with store := (setAcl s.store objId ⟨uid, Visibility.pub, []⟩) },
       some { upd with coverImageUrl := some objId, coverImageURL := none }) := by
  have hat := attachStep_success s curl objId ⟨uid, Visibility.pub, []⟩ hres hbytes hnoconf
  simp [episodeCoverStep, hc, hne, hat]

theorem episodeAudioStep_cover_preserve (s : SystemState) (uid : String)
    (upd : EpisodeUpdates) (s1 : SystemState) (upd1 : EpisodeUpdates)
    (h : episodeAudioStep s uid upd = (s1, some upd1)) :
    upd1.coverImageURL = upd.coverImageURL := by
  unfold episodeAudioStep at h
  split at h
  · simp only [Prod.mk.injEq, Option.some.injEq] at h
    rw [← h.2]
  · split at h
    · simp only [Prod.mk.injEq, Option.some.injEq] at h
      rw [← h.2]
    · split at h
      · simp only [Prod.mk.injEq, Option.some.injEq] at h
        rw [← h.2]
      · simp at h

/-- C9: every cover-image attach performed by the show, season and episode
update handlers attaches an ACL record with visibility `public` and owner =
the authenticated caller.  The episode conjunct quantifies over any completed
audio branch (`episodeAudioStep` returning without a thrown error), covering
requests that supply both an `audioFileURL` and a `coverImageURL` as well as
cover-only requests. -/
theorem cover_attach_always_public_owner_caller :
    (∀ (s : SystemState) (uid showId : String) (u : User) (upd : ShowUpdates)
        (curl objId : String),
      s.usersDb uid = some u → upd.coverImageURL = some curl → curl ≠ "" →
      normalizeObjectEntityPath curl = Except.ok objId →
      (s.store.bytes objId).isSome = true →
      (s.store.acl objId = none ∨ ∃ r, s.store.acl objId = some r ∧ r.owner = uid) →
      (putShowHandler s (some uid) showId upd).1.store.acl objId =
        some ⟨uid, Visibility.pub, []⟩) ∧
    (∀ (s : SystemState) (uid seasonId : String) (u : User) (upd : SeasonUpdates)
        (curl objId : String),
      s.usersDb uid = some u → upd.coverImageURL = some curl → curl ≠ "" →
      normalizeObjectEntityPath curl = Except.ok objId →
      (s.store.bytes objId).isSome = true →
      (s.store.acl objId = none ∨ ∃ r, s.store.acl objId = some r ∧ r.owner = uid) →
      (putSeasonHandler s (some uid) seasonId upd).1.store.acl objId =
        some ⟨uid, Visibility.pub, []⟩) ∧
    (∀ (s : SystemState) (uid epId : String) (u : User) (upd : EpisodeUpdates)
        (curl objId : String) (s1 : SystemState) (upd1 : EpisodeUpdates),
      s.usersDb uid = some u →
      episodeAudioStep s uid upd = (s1, some upd1) →
      upd.coverImageURL = some curl → curl ≠ "" →
      normalizeObjectEntityPath curl = Except.ok objId →
      (s1.store.bytes objId).isSome = true →
      (s1.store.acl objId = none ∨ ∃ r, s1.store.acl objId = some r ∧ r.owner = uid) →
      (putEpisodeHandler s (some uid) epId upd).1.store.acl objId =
        some ⟨uid, Visibility.pub, []⟩) := by
  refine ⟨?_, ?_, ?_⟩
  · intro s uid showId u upd curl objId hu hc hne hres hbytes hnoconf
    have hcs := showCoverStep_success s uid upd curl objId hc hne hres hbytes hnoconf
    simp [putShowHandler, hu, hcs, updateShow, setAcl]
  · intro s uid seasonId u upd curl objId hu hc hne hres hbytes hnoconf
    have hcs := seasonCoverStep_success s uid upd curl objId hc hne hres hbytes hnoconf
    simp [putSeasonHandler, hu, hcs, updateSeason, setAcl]
  · intro s uid epId u upd curl objId s1 upd1 hu hstep hc hne hres hbytes hnoconf
    have hc1 : upd1.coverImageURL = some curl := by
      rw [episodeAudioStep_cover_preserve s uid upd s1 upd1 hstep]
      exact hc
    have hcs := episodeCoverStep_success s1 uid upd1 curl objId hc1 hne hres hbytes hnoconf
    simp [putEpisodeHandler, hu, hstep, hcs, updateEpisode, setAcl]

/-- Show body used by the C9 witness. -/
def showUpdW : ShowUpdates := { coverImageURL := some wUrl }

/-- Season body used by the C9 witness. -/
def seasonUpdW : SeasonUpdates := { coverImageURL := some wUrl }

/-- Bytes map with two objects, an audio file and a cover image. -/
def wBytes2 : String → Option (List Nat) :=
  fun k =>
    if k = "uploads/a" then some [7, 8]
    else if k = "uploads/c" then some [9]
    else none

/-- Witness store holding both objects, no ACL records yet. -/
def wStoreTwo : ObjectStore := { bytes := wBytes2, acl := fun _ => none }

/-- Upload destination URL of the witness cover object. -/
def wUrlC : String := "https://storage.googleapis.com/uploads/c"

/-- Episode body used by the C9 witness: a combined update supplying both an
audio file and a cover image. -/
def epBothUpdW : EpisodeUpdates :=
  { audioFileURL := some wUrl, coverImageURL := some wUrlC, isPublished := some true }

/-- Witness for C9 at the concrete fixture, one conjunct per handler; the
episode conjunct is exercised on a combined audio-and-cover update. -/
theorem cover_attach_always_public_owner_caller_witness :
    (putShowHandler (wSys wStoreNoAcl) (some "u1") "s1" showUpdW).1.store.acl
      "uploads/a" = some ⟨"u1", Visibility.pub, []⟩ ∧
    (putSeasonHandler (wSys wStoreNoAcl) (some "u1") "se1" seasonUpdW).1.store.acl
      "uploads/a" = some ⟨"u1", Visibility.pub, []⟩ ∧
    (putEpisodeHandler (wSys wStoreTwo) (some "u1") "e1" epBothUpdW).1.store.acl
      "uploads/c" = some ⟨"u1", Visibility.pub, []⟩ :=
  ⟨cover_attach_always_public_owner_caller.1 (wSys wStoreNoAcl) "u1" "s1"
      ⟨"producer"⟩ showUpdW wUrl "uploads/a" rfl rfl (by decide) rfl rfl (Or.inl rfl),
   cover_attach_always_public_owner_caller.2.1 (wSys wStoreNoAcl) "u1" "se1"
      ⟨"producer"⟩ seasonUpdW wUrl "uploads/a" rfl rfl (by decide) rfl rfl (Or.inl rfl),
   cover_attach_always_public_owner_caller.2.2 (wSys wStoreTwo) "u1" "e1"
      ⟨"producer"⟩ epBothUpdW wUrlC "uploads/c"
      (episodeAudioStep (wSys wStoreTwo) "u1" epBothUpdW).1
      { epBothUpdW with audioFileUrl := some "uploads/a", audioFileURL := none }
      rfl rfl rfl (by decide) rfl rfl (Or.inl rfl)⟩
